import Mathlib

/-!
Verification development for a two-script PDF batch-extraction pipeline.

The pipeline has two phases:
* `prepare_batch.py` (the Manifest Builder): discovers PDF files, uploads
  each one to a remote file store, classifies each filename as question
  paper or marking memo, and writes one JSON request record per
  successfully uploaded document into a line-delimited manifest file.
* `submit_job.py` (the Batch Submitter): uploads the manifest itself and
  issues a batch-job-creation call referencing the uploaded manifest.

The embedding below translates each Python function into a Lean function.
External effects (console output, network calls, subprocess invocations,
file writes, sleeps) are recorded in an explicit `Effect` trace, and the
remote service is an explicit environment parameter.  Unbounded polling
loops take a fuel parameter; a result of `none` means the loop did not
terminate within the given fuel.
-/

set_option maxHeartbeats 1000000

namespace PdfBatch

/-- Python truthiness test `if not x:` on a value of type `Optional[str]`:
`None` and the empty string are falsy, every other string is truthy. -/
def pyFalsy : Option String → Bool
  | Option.none => true
  | Option.some s => s = ""

/-- Does the character list `s` start with the character list `pat`? -/
def startsWithL : List Char → List Char → Bool
  | [], _ => true
  | _ :: _, [] => false
  | p :: ps, c :: cs => p = c && startsWithL ps cs

/-- Python substring containment `pat in s`, on character lists:
true when `pat` occurs contiguously anywhere in `s`. -/
def hasSubstring : List Char → List Char → Bool
  | [], pat => startsWithL pat []
  | c :: cs, pat => startsWithL pat (c :: cs) || hasSubstring cs pat

/-- `os.path.basename` for POSIX paths: the part of the path after the
last slash (the whole path when it has no slash). -/
def basename (s : String) : String :=
  String.mk ((s.data.reverse.takeWhile (fun c => c != '/')).reverse)

/-- Python `str.upper()` restricted to its ASCII action, as a character
list (`Char.toUpper` uppercases exactly the ASCII letters). -/
def upperChars (s : String) : List Char :=
  s.data.map Char.toUpper

/-- Filename classification from `create_batch_request`:
`is_memo = "MEMO" in filename.upper() or "MG" in filename.upper()`. -/
def is_memo (filename : String) : Bool :=
  hasSubstring (upperChars filename) "MEMO".data ||
  hasSubstring (upperChars filename) "MG".data

/-- JSON values as they appear in this program.  Every leaf that occurs in
the two scripts is a string, so strings are the only atoms needed. -/
inductive Json where
  | str (s : String)
  | obj (fields : List (String × Json))
  | arr (elems : List Json)

/-- The repeated leaf object for a string-typed schema field. -/
def tyStr : Json := Json.obj [("type", Json.str "STRING")]

/-- The repeated leaf object for an integer-typed schema field. -/
def tyInt : Json := Json.obj [("type", Json.str "INTEGER")]

/-- The question-paper schema `qp_schema` defined in
`create_batch_request`. -/
def qp_schema : Json :=
  Json.obj
    [ ("type", Json.str "OBJECT")
    , ("properties", Json.obj
        [ ("subject", tyStr)
        , ("year", tyInt)
        , ("session", tyStr)
        , ("total_marks", tyInt)
        , ("groups", Json.obj
            [ ("type", Json.str "ARRAY")
            , ("items", Json.obj
                [ ("type", Json.str "OBJECT")
                , ("properties", Json.obj
                    [ ("group_id", tyStr)
                    , ("title", tyStr)
                    , ("questions", Json.obj
                        [ ("type", Json.str "ARRAY")
                        , ("items", Json.obj
                            [ ("type", Json.str "OBJECT")
                            , ("properties", Json.obj
                                [ ("id", tyStr)
                                , ("text", tyStr)
                                , ("marks", tyInt)
                                , ("options", Json.obj
                                    [ ("type", Json.str "ARRAY")
                                    , ("items", Json.obj
                                        [ ("type", Json.str "OBJECT")
                                        , ("properties", Json.obj
                                            [ ("label", tyStr)
                                            , ("text", tyStr) ]) ]) ]) ]) ]) ]) ]) ]) ]) ]) ]

/-- The memo schema `memo_schema` defined in `create_batch_request`. -/
def memo_schema : Json :=
  Json.obj
    [ ("type", Json.str "OBJECT")
    , ("properties", Json.obj
        [ ("meta", Json.obj
            [ ("type", Json.str "OBJECT")
            , ("properties", Json.obj
                [ ("subject", tyStr)
                , ("year", tyInt)
                , ("session", tyStr)
                , ("paper", tyStr)
                , ("total_marks", tyInt) ]) ])
        , ("sections", Json.obj
            [ ("type", Json.str "ARRAY")
            , ("items", Json.obj
                [ ("type", Json.str "OBJECT")
                , ("properties", Json.obj
                    [ ("section_id", tyStr)
                    , ("questions", Json.obj
                        [ ("type", Json.str "ARRAY")
                        , ("items", Json.obj
                            [ ("type", Json.str "OBJECT")
                            , ("properties", Json.obj
                                [ ("id", tyStr)
                                , ("model_answers", Json.obj
                                    [ ("type", Json.str "ARRAY")
                                    , ("items", tyStr) ])
                                , ("answers", Json.obj
                                    [ ("type", Json.str "ARRAY")
                                    , ("items", Json.obj
                                        [ ("type", Json.str "OBJECT")
                                        , ("properties", Json.obj
                                            [ ("sub_id", tyStr)
                                            , ("value", tyStr)
                                            , ("marks", tyInt) ]) ]) ])
                                , ("marks", tyInt)
                                , ("marker_instruction", tyStr) ]) ]) ]) ]) ]) ]) ]) ]

/-- The question-paper prompt string from `create_batch_request`. -/
def qpPrompt : String := "Extract the full exam paper structure."

/-- The memo prompt string from `create_batch_request`. -/
def memoPrompt : String := "Extract the marking guidelines."

/-- One element of a request message `parts` list: either a text part
`\x7b"text": s\x7d` or a file part
`\x7b"file_data": \x7b"mime_type": m, "file_uri": u\x7d\x7d`. -/
inductive Part where
  | text (s : String)
  | fileData (mime_type : String) (file_uri : String)

/-- One element of the `contents` list of a request. -/
structure Content where
  role : String
  parts : List Part

/-- The `generation_config` object of a request. -/
structure GenerationConfig where
  response_mime_type : String
  response_schema : Json

/-- The inner `request` object of a manifest record. -/
structure RequestBody where
  contents : List Content
  generation_config : GenerationConfig

/-- One manifest record, mirroring the dictionary built in
`create_batch_request` (one line of the JSONL manifest). -/
structure BatchRequest where
  custom_id : String
  request : RequestBody

/-- The record `create_batch_request` builds for one document whose
upload produced the URI `uri`, translated field by field from the
dictionary literal in the loop body. -/
def mkRequest (pdf_path uri : String) : BatchRequest :=
  let filename := basename pdf_path
  let m := is_memo filename
  { custom_id := filename
  , request :=
    { contents :=
        [ { role := "user"
          , parts :=
              [ Part.text (if m then memoPrompt else qpPrompt)
              , Part.fileData "application/pdf" uri ] } ]
    , generation_config :=
      { response_mime_type := "application/json"
      , response_schema := if m then memo_schema else qp_schema } } }

/-- Externally visible actions of either script, recorded in order.
`netUploadFile` and `netGetFile` are the SDK file-store calls
(`genai.upload_file` / `genai.get_file`); `runProc` is a
`subprocess.run` invocation (both scripts only ever run `curl`, so every
`runProc` is a network call); `sleep` is `time.sleep`; `writeFile` is a
local file write with the full text written. -/
inductive Effect where
  | print (s : String)
  | netUploadFile (path : String) (mime : Option String)
  | netGetFile (name : String)
  | sleep (secs : Nat)
  | writeFile (path : String) (content : String)
  | runProc (args : List String)
deriving DecidableEq, Repr

/-- Effects that reach the network: the two SDK file-store calls and any
`subprocess.run` (always `curl` against the remote API in these
scripts). -/
def isNetworkEffect : Effect → Bool
  | Effect.netUploadFile _ _ => true
  | Effect.netGetFile _ => true
  | Effect.runProc _ => true
  | _ => false

/-- A remote file handle as the scripts read it: `name` and `uri` fields
plus the state string exposed as `handle.state.name`
(values such as "PROCESSING", "ACTIVE", "FAILED"). -/
structure FileHandle where
  name : String
  uri : String
  state : String
deriving DecidableEq, Repr

/-- Environment of one `upload_file` call in `prepare_batch.py`:
the result of the initial `genai.upload_file` transport call (`.error`
models the call raising), and the results of the successive
`genai.get_file` re-fetches made by the polling loop. -/
structure UploadEnv where
  path : String
  initial : Except String FileHandle
  refetch : Nat → Except String FileHandle

/-- The polling loop of `upload_file`:
`while file_ref.state.name == "PROCESSING": print("."); time.sleep(2);
file_ref = genai.get_file(file_ref.name)`.
Returns the terminal handle (or the exception raised by a re-fetch)
together with the trace of the loop body; `none` when the loop does not
leave the PROCESSING state within `fuel` iterations. -/
def pollUpload (refetch : Nat → Except String FileHandle) :
    FileHandle → Nat → Nat → Option (Except String FileHandle × List Effect)
  | h, _, 0 =>
      if h.state = "PROCESSING" then none else some (Except.ok h, [])
  | h, i, fuel + 1 =>
      if h.state = "PROCESSING" then
        let body := [Effect.print ".", Effect.sleep 2, Effect.netGetFile h.name]
        match refetch i with
        | Except.error e => some (Except.error e, body)
        | Except.ok h' =>
            (pollUpload refetch h' (i + 1) fuel).map
              (fun r => (r.1, body ++ r.2))
      else some (Except.ok h, [])

/-- `upload_file(path)` from `prepare_batch.py`: prints, uploads the PDF,
polls until the handle leaves PROCESSING, and returns the URI when the
terminal state is ACTIVE; returns `none` (Python `None`) when the
terminal state is not ACTIVE or when a transport call raises (the body
is wrapped in `try/except`, so no exception escapes).  The outer
`Option` is polling fuel: `none` means the loop did not terminate. -/
def upload_file (env : UploadEnv) (fuel : Nat) :
    Option (Option String × List Effect) :=
  let pre := [Effect.print ("DTO Uploading " ++ env.path ++ "..."),
              Effect.netUploadFile env.path (some "application/pdf")]
  match env.initial with
  | Except.error e =>
      some (none, pre ++ [Effect.print ("❌ Upload failed: " ++ e)])
  | Except.ok h0 =>
      match pollUpload env.refetch h0 0 fuel with
      | none => none
      | some (Except.error e, es) =>
          some (none, pre ++ es ++ [Effect.print ("❌ Upload failed: " ++ e)])
      | some (Except.ok h, es) =>
          if h.state != "ACTIVE" then
            some (none, pre ++ es ++
              [Effect.print ("❌ File " ++ env.path ++ " failed to process: " ++ h.state)])
          else
            some (some h.uri, pre ++ es ++ [Effect.print ("✅ Ready: " ++ h.uri)])

/-- Loop body of `create_batch_request`, with the running index `i` and
the fixed total used by the progress message.  `uploadFn p` is the value
returned by `upload_file(p)` (Python `None` or a URI string); the call
itself is recorded as the network effect of uploading `p`, and the
console output internal to `upload_file` is modelled in `upload_file`.
The `if not file_uri: continue` test is the Python truthiness test
`pyFalsy`. -/
def create_batch_request_aux (uploadFn : String → Option String) (total : Nat) :
    Nat → List String → List BatchRequest × List Effect
  | _, [] => ([], [])
  | i, p :: rest =>
      let prep := Effect.print ("--- Preparing " ++ toString (i + 1) ++ "/" ++
        toString total ++ ": " ++ basename p ++ " ---")
      let up := Effect.netUploadFile p (some "application/pdf")
      let tailRes := create_batch_request_aux uploadFn total (i + 1) rest
      let file_uri := uploadFn p
      if pyFalsy file_uri then
        (tailRes.1, prep :: up :: tailRes.2)
      else
        (mkRequest p (file_uri.getD "") :: tailRes.1, prep :: up :: tailRes.2)

/-- `create_batch_request(pdf_files)`: the list of manifest records built
(first component) and the trace of the loop (second component). -/
def create_batch_request (uploadFn : String → Option String)
    (pdf_files : List String) : List BatchRequest × List Effect :=
  create_batch_request_aux uploadFn pdf_files.length 0 pdf_files

/-- Escaping of one character inside a JSON string literal, as performed
by `json.dumps` on the quote and backslash characters (the only escapes
these scripts can trigger on their ASCII data; control-character and
non-ASCII escapes are not modelled because no modelled value needs
them). -/
def jsonEscapeChar (c : Char) : List Char :=
  if c = '\\' then ['\\', '\\']
  else if c = '"' then ['\\', '"']
  else [c]

/-- A JSON string literal with its enclosing quotes. -/
def jsonQuote (s : String) : String :=
  String.mk ('"' :: (s.data.map jsonEscapeChar).flatten ++ ['"'])

/-- `json.dumps` with its default separators (", " between items,
": " after keys) on the `Json` values of this development. -/
def dumpJson : Json → String
  | Json.str s => jsonQuote s
  | Json.arr xs =>
      "[" ++ String.intercalate ", " (xs.attach.map (fun x => dumpJson x.1)) ++ "]"
  | Json.obj kvs =>
      "\x7b" ++ String.intercalate ", "
        (kvs.attach.map (fun x => jsonQuote x.1.1 ++ ": " ++ dumpJson x.1.2)) ++ "\x7d"
decreasing_by
  all_goals {
    have h1 := List.sizeOf_lt_of_mem x.2
    simp only [Json.arr.sizeOf_spec, Json.obj.sizeOf_spec]
    first
    | omega
    | { obtain ⟨⟨a, b⟩, hm⟩ := x
        simp only [Prod.mk.sizeOf_spec] at h1 ⊢
        omega } }

/-- One `Part` as the JSON object the script puts into the `parts`
list. -/
def Part.toJson : Part → Json
  | Part.text s => Json.obj [("text", Json.str s)]
  | Part.fileData m u =>
      Json.obj [("file_data", Json.obj [("mime_type", Json.str m), ("file_uri", Json.str u)])]

/-- One `Content` as its JSON object. -/
def Content.toJson (c : Content) : Json :=
  Json.obj [("role", Json.str c.role), ("parts", Json.arr (c.parts.map Part.toJson))]

/-- A whole manifest record as the JSON object passed to
`json.dumps`. -/
def BatchRequest.toJson (r : BatchRequest) : Json :=
  Json.obj
    [ ("custom_id", Json.str r.custom_id)
    , ("request", Json.obj
        [ ("contents", Json.arr (r.request.contents.map Content.toJson))
        , ("generation_config", Json.obj
            [ ("response_mime_type", Json.str r.request.generation_config.response_mime_type)
            , ("response_schema", r.request.generation_config.response_schema) ]) ]) ]

/-- The full text written to `batch_requests.jsonl`: for each record,
`json.dumps(r) + "\n"`. -/
def manifestText (rs : List BatchRequest) : String :=
  String.join (rs.map (fun r => dumpJson r.toJson ++ "\n"))

/-- The final instruction line printed by the Builder. -/
def runNextMsg : String :=
  "Run: \x27python submit_job.py\x27 (I will create this next) to finalize."

/-- The `__main__` block of `prepare_batch.py` together with `setup()`:
with a falsy credential it prints the diagnostic and calls `exit(1)`;
otherwise it globs (the discovered files are the `files` parameter),
builds the requests, writes the manifest and exits normally (status 0).
`genai.configure` is a local SDK setting and produces no effect. -/
def prepare_main (apiKey : Option String) (files : List String)
    (uploadFn : String → Option String) : List Effect × Nat :=
  if pyFalsy apiKey then
    ([Effect.print "❌ Error: GEMINI_API_KEY environment variable not set."], 1)
  else
    let cbr := create_batch_request uploadFn files
    ([Effect.print ("📂 Found " ++ toString files.length ++ " PDFs.")]
      ++ cbr.2
      ++ [Effect.writeFile "batch_requests.jsonl" (manifestText cbr.1),
          Effect.print ("\n✅ generated batch_requests.jsonl with " ++
            toString cbr.1.length ++ " entries."),
          Effect.print runNextMsg], 0)

/-- The result object of `subprocess.run(..., capture_output=True,
text=True)`.  A Python `CompletedProcess` carries exactly the attributes
`args`, `returncode`, `stdout` and `stderr`. -/
structure CompletedProcess where
  args : List String
  returncode : Int
  stdout : String
  stderr : String
deriving DecidableEq, Repr

/-- A Python attribute value, for modelling dynamic attribute lookup on
a `CompletedProcess`. -/
inductive PyVal where
  | str (s : String)
  | int (i : Int)
  | strs (l : List String)
deriving DecidableEq, Repr

/-- Dynamic attribute lookup on a `CompletedProcess`: the four attributes
the object has, and `none` for every other name (in Python the lookup
raises `AttributeError`). -/
def CompletedProcess.getAttr (r : CompletedProcess) (a : String) : Option PyVal :=
  if a = "args" then some (PyVal.strs r.args)
  else if a = "returncode" then some (PyVal.int r.returncode)
  else if a = "stdout" then some (PyVal.str r.stdout)
  else if a = "stderr" then some (PyVal.str r.stderr)
  else none

/-- The message of the `AttributeError` raised by `res.headers` on a
`CompletedProcess`. -/
def headersAttrErrMsg : String :=
  "\x27CompletedProcess\x27 object has no attribute \x27headers\x27"

/-- The `upload_cmd` curl invocation of `submit_job.py` (the resumable
upload-session start), built from the credential and
`os.path.getsize(JSONL_FILE)`. -/
def uploadCmd (key : String) (size : Nat) : List String :=
  [ "curl", "-X", "POST"
  , "https://generativelanguage.googleapis.com/upload/v1beta/files?key=" ++ key
  , "-H", "X-Goog-Upload-Protocol: resumable"
  , "-H", "X-Goog-Upload-Command: start"
  , "-H", "X-Goog-Upload-Header-Content-Length: " ++ toString size
  , "-H", "X-Goog-Upload-Header-Content-Type: application/json"
  , "-H", "Content-Type: application/json"
  , "-d", "\x7b\"file\": \x7b\"display_name\": \"batch_requests.jsonl\"\x7d\x7d" ]

/-- `json.dumps(\x7b"source": \x7b"file_uri": uri\x7d\x7d)`: the
job-creation payload of `submit_job.py`, referencing the given file
URI. -/
def jsonDumpSource (uri : String) : String :=
  dumpJson (Json.obj [("source", Json.obj [("file_uri", Json.str uri)])])

/-- The `curl_cmd` batch-job-creation invocation of `submit_job.py`. -/
def batchCmd (key : String) (payload : String) : List String :=
  [ "curl", "-X", "POST"
  , "https://generativelanguage.googleapis.com/v1beta/batches?key=" ++ key
  , "-H", "Content-Type: application/json"
  , "-d", payload ]

/-- Environment of one `submit_batch_curl()` call: the credential, the
size of the manifest file, the result of the upload-session curl, the
result of `genai.upload_file(JSONL_FILE)` (`.error` models the call
raising), the successive `genai.get_file` results of the polling loop,
and the result of the job-creation curl. -/
structure SubmitEnv where
  apiKey : Option String
  jsonlSize : Nat
  curlStart : CompletedProcess
  sdkUpload : Except String FileHandle
  refetch : Nat → Except String FileHandle
  finalRes : CompletedProcess

/-- The polling loop of `submit_batch_curl`:
`while batch_file.state.name == "PROCESSING": time.sleep(1);
batch_file = genai.get_file(batch_file.name)`.  Unlike the Builder loop
it sleeps 1 time-unit and prints nothing.  `none` when the loop does not
leave the PROCESSING state within `fuel` iterations. -/
def pollBatch (refetch : Nat → Except String FileHandle) :
    FileHandle → Nat → Nat → Option (Except String FileHandle × List Effect)
  | h, _, 0 =>
      if h.state = "PROCESSING" then none else some (Except.ok h, [])
  | h, i, fuel + 1 =>
      if h.state = "PROCESSING" then
        let body := [Effect.sleep 1, Effect.netGetFile h.name]
        match refetch i with
        | Except.error e => some (Except.error e, body)
        | Except.ok h' =>
            (pollBatch refetch h' (i + 1) fuel).map
              (fun r => (r.1, body ++ r.2))
      else some (Except.ok h, [])

/-- The segment of the `try` body of `submit_batch_curl` that follows the
`res.headers` access (the SDK manifest upload, its polling loop, the
job-creation curl and the response inspection).  The second component is
the exception, if one was raised by a transport call, to be caught by the
outer handler.  In every actual run this code is unreachable because the
`res.headers` access raises first; it is modelled separately so its
behavior can be stated. -/
def submitInner (env : SubmitEnv) (fuel : Nat) :
    Option (List Effect × Option String) :=
  let key := env.apiKey.getD ""
  let pre := [Effect.print "📤 Uploading JSONL via Python SDK...",
              Effect.netUploadFile "batch_requests.jsonl" none]
  match env.sdkUpload with
  | Except.error e => some (pre, some e)
  | Except.ok h0 =>
      match pollBatch env.refetch h0 0 fuel with
      | none => none
      | some (Except.error e, es) => some (pre ++ es, some e)
      | some (Except.ok h, es) =>
          let payload := jsonDumpSource h.uri
          some (pre ++ es ++
            [ Effect.print ("✅ Batch Input File Ready: " ++ h.uri)
            , Effect.print "🚀 Creating Batch Job..."
            , Effect.runProc (batchCmd key payload)
            , Effect.print ("Response: " ++ env.finalRes.stdout) ] ++
            (if hasSubstring env.finalRes.stdout.data "error".data then
              [Effect.print "❌ Batch Creation Failed."]
            else
              [Effect.print "✅ Batch Job Created! Check response for ID."]), none)

/-- `submit_batch_curl()` from `submit_job.py`.  With a falsy credential
it prints and returns.  Otherwise it starts an upload session via curl
and then evaluates `res.headers.get("x-goog-upload-url")`; since a
`CompletedProcess` has no `headers` attribute the lookup raises, the
outer `except` prints the error, and the rest of the `try` body
(`submitInner`) runs only in the impossible case that the lookup
succeeds. -/
def submit_batch_curl (env : SubmitEnv) (fuel : Nat) : Option (List Effect) :=
  if pyFalsy env.apiKey then
    some [Effect.print "❌ API Key missing"]
  else
    let key := env.apiKey.getD ""
    let t0 := [Effect.print "📤 Uploading batch_requests.jsonl to Gemini File API...",
               Effect.runProc (uploadCmd key env.jsonlSize)]
    match CompletedProcess.getAttr env.curlStart "headers" with
    | none => some (t0 ++ [Effect.print ("❌ Error: " ++ headersAttrErrMsg)])
    | some _ =>
        match submitInner env fuel with
        | none => none
        | some (t, none) => some (t0 ++ t)
        | some (t, some e) => some (t0 ++ t ++ [Effect.print ("❌ Error: " ++ e)])

/-- The `__main__` block of `submit_job.py`: it calls
`submit_batch_curl()`, and since that function catches every exception,
the process always ends with exit status 0 when the function returns. -/
def submit_main (env : SubmitEnv) (fuel : Nat) : Option (List Effect × Nat) :=
  (submit_batch_curl env fuel).map (fun t => (t, 0))

/-- A `CompletedProcess` stub for concrete test environments. -/
def procStub : CompletedProcess := ⟨[], 0, "", ""⟩

/-- A `FileHandle` stub for concrete test environments. -/
def handleStub : FileHandle := ⟨"", "", ""⟩

/-- Concrete submit environment with the credential present. -/
def envC3 : SubmitEnv :=
  ⟨some "K", 7, procStub, Except.ok handleStub, fun _ => Except.ok handleStub, procStub⟩

/-- Concrete submit environment with the credential absent. -/
def envNoKey : SubmitEnv :=
  ⟨none, 0, procStub, Except.ok handleStub, fun _ => Except.ok handleStub, procStub⟩

/-- Concrete submit environment whose manifest handle is observed
PROCESSING once and then FAILED, with an empty job-creation response
body. -/
def envC5 : SubmitEnv :=
  ⟨some "K", 3, procStub, Except.ok ⟨"files/m", "uri-m", "PROCESSING"⟩,
   fun _ => Except.ok ⟨"files/m", "uri-m", "FAILED"⟩, procStub⟩

/-- The trace of `submitInner envC5 2`. -/
def c5Trace : List Effect :=
  [ Effect.print "📤 Uploading JSONL via Python SDK..."
  , Effect.netUploadFile "batch_requests.jsonl" none
  , Effect.sleep 1
  , Effect.netGetFile "files/m"
  , Effect.print "✅ Batch Input File Ready: uri-m"
  , Effect.print "🚀 Creating Batch Job..."
  , Effect.runProc (batchCmd "K" (jsonDumpSource "uri-m"))
  , Effect.print "Response: "
  , Effect.print "✅ Batch Job Created! Check response for ID." ]

/-- Concrete submit environment whose manifest handle is immediately
ACTIVE. -/
def envC6 : SubmitEnv :=
  ⟨some "K", 3, procStub, Except.ok ⟨"files/m", "uri-m", "ACTIVE"⟩,
   fun _ => Except.ok ⟨"files/m", "uri-m", "ACTIVE"⟩, procStub⟩

/-- The trace of `submitInner envC6 0`. -/
def c6Trace : List Effect :=
  [ Effect.print "📤 Uploading JSONL via Python SDK..."
  , Effect.netUploadFile "batch_requests.jsonl" none
  , Effect.print "✅ Batch Input File Ready: uri-m"
  , Effect.print "🚀 Creating Batch Job..."
  , Effect.runProc (batchCmd "K" (jsonDumpSource "uri-m"))
  , Effect.print "Response: "
  , Effect.print "✅ Batch Job Created! Check response for ID." ]

/-- Concrete submit environment with an immediately ACTIVE manifest
handle and an empty job-creation response body. -/
def envC7 : SubmitEnv :=
  ⟨some "K", 3, procStub, Except.ok ⟨"files/m", "uri-m", "ACTIVE"⟩,
   fun _ => Except.ok ⟨"files/m", "uri-m", "ACTIVE"⟩, procStub⟩

/-- The trace of `submitInner envC7 0`. -/
def c7Trace : List Effect :=
  [ Effect.print "📤 Uploading JSONL via Python SDK..."
  , Effect.netUploadFile "batch_requests.jsonl" none
  , Effect.print "✅ Batch Input File Ready: uri-m"
  , Effect.print "🚀 Creating Batch Job..."
  , Effect.runProc (batchCmd "K" (jsonDumpSource "uri-m"))
  , Effect.print "Response: "
  , Effect.print "✅ Batch Job Created! Check response for ID." ]

/-- Concrete upload environment whose document handle is immediately
ACTIVE with URI `u`. -/
def envC8 : UploadEnv :=
  ⟨"pdfs/a.pdf", Except.ok ⟨"files/a", "u", "ACTIVE"⟩,
   fun _ => Except.ok ⟨"files/a", "u", "ACTIVE"⟩⟩

/-- The trace of `upload_file envC8 0`. -/
def c8Trace : List Effect :=
  [ Effect.print "DTO Uploading pdfs/a.pdf..."
  , Effect.netUploadFile "pdfs/a.pdf" (some "application/pdf")
  , Effect.print "✅ Ready: u" ]

/-!  ## Helper lemmas -/

theorem create_batch_request_aux_fst (uploadFn : String → Option String)
    (total : Nat) : ∀ (i : Nat) (files : List String),
    (create_batch_request_aux uploadFn total i files).1 =
      (files.filter (fun p => !pyFalsy (uploadFn p))).map
        (fun p => mkRequest p ((uploadFn p).getD "")) := by
  intro i files
  induction files generalizing i with
  | nil => rfl
  | cons p rest ih =>
    simp only [create_batch_request_aux, List.filter_cons]
    cases h : pyFalsy (uploadFn p) with
    | true => simp [h, ih]
    | false => simp [h, ih]

theorem create_batch_request_fst (uploadFn : String → Option String)
    (files : List String) :
    (create_batch_request uploadFn files).1 =
      (files.filter (fun p => !pyFalsy (uploadFn p))).map
        (fun p => mkRequest p ((uploadFn p).getD "")) :=
  create_batch_request_aux_fst uploadFn files.length 0 files

theorem takeWhile_append_all {p : Char → Bool} (l1 l2 : List Char)
    (h : ∀ a ∈ l1, p a = true) :
    (l1 ++ l2).takeWhile p = l1 ++ l2.takeWhile p := by
  induction l1 with
  | nil => rfl
  | cons c cs ih =>
    have hc : p c = true := h c (List.mem_cons_self c cs)
    simp only [List.cons_append, List.takeWhile_cons, hc, if_true]
    rw [ih (fun a ha => h a (List.mem_cons_of_mem c ha))]

theorem basename_pdfs (n : String) (h : '/' ∉ n.data) :
    basename ("pdfs/" ++ n) = n := by
  have hdata : ("pdfs/" ++ n).data = ['p', 'd', 'f', 's', '/'] ++ n.data := rfl
  have hrev : ("pdfs/" ++ n).data.reverse = n.data.reverse ++ ['/', 's', 'f', 'd', 'p'] := by
    rw [hdata]; simp
  have hall : ∀ a ∈ n.data.reverse, (a != '/') = true := by
    intro a ha
    have : a ∈ n.data := List.mem_reverse.mp ha
    have hne : a ≠ '/' := fun he => h (he ▸ this)
    simp [hne]
  have htw : (n.data.reverse ++ ['/', 's', 'f', 'd', 'p']).takeWhile (fun c => c != '/') =
      n.data.reverse := by
    rw [takeWhile_append_all _ _ hall]
    simp [List.takeWhile_cons]
  show String.mk ((("pdfs/" ++ n).data.reverse.takeWhile (fun c => c != '/')).reverse) = n
  rw [hrev, htw, List.reverse_reverse]

theorem pollUpload_shape (refetch : Nat → Except String FileHandle) :
    ∀ (h : FileHandle) (i fuel : Nat) (r : Except String FileHandle)
      (es : List Effect),
    pollUpload refetch h i fuel = some (r, es) →
    ∀ e ∈ es, e = Effect.print "." ∨ e = Effect.sleep 2 ∨
      ∃ nm, e = Effect.netGetFile nm := by
  intro h i fuel
  induction fuel generalizing h i with
  | zero =>
    intro r es hp e he
    simp only [pollUpload] at hp
    by_cases hs : h.state = "PROCESSING"
    · simp [hs] at hp
    · simp only [hs, if_false, if_neg hs, Option.some_inj, Prod.mk.injEq] at hp
      obtain ⟨h1, h2⟩ := hp
      subst h2
      simp at he
  | succ fuel ih =>
    intro r es hp e he
    simp only [pollUpload] at hp
    by_cases hs : h.state = "PROCESSING"
    · simp only [hs, if_true] at hp
      cases hr : refetch i with
      | error err =>
        rw [hr] at hp
        dsimp only at hp
        simp only [Option.some_inj, Prod.mk.injEq] at hp
        obtain ⟨h1, h2⟩ := hp
        subst h2
        simp at he
        rcases he with h1 | h1 | h1 <;> simp [h1]
      | ok h' =>
        rw [hr] at hp
        dsimp only at hp
        cases hq : pollUpload refetch h' (i + 1) fuel with
        | none => rw [hq] at hp; simp at hp
        | some pr =>
          obtain ⟨r', es'⟩ := pr
          rw [hq] at hp
          simp at hp
          obtain ⟨h1, h2⟩ := hp
          subst h2
          simp only [List.cons_append, List.nil_append, List.mem_cons] at he
          rcases he with h3 | h3 | h3 | h3
          · exact Or.inl h3
          · exact Or.inr (Or.inl h3)
          · exact Or.inr (Or.inr ⟨h.name, h3⟩)
          · exact ih h' (i + 1) r' es' hq e h3
    · simp only [hs, if_false, if_neg hs, Option.some_inj, Prod.mk.injEq] at hp
      obtain ⟨h1, h2⟩ := hp
      subst h2
      simp at he

theorem pollBatch_shape (refetch : Nat → Except String FileHandle) :
    ∀ (h : FileHandle) (i fuel : Nat) (r : Except String FileHandle)
      (es : List Effect),
    pollBatch refetch h i fuel = some (r, es) →
    ∀ e ∈ es, e = Effect.sleep 1 ∨ ∃ nm, e = Effect.netGetFile nm := by
  intro h i fuel
  induction fuel generalizing h i with
  | zero =>
    intro r es hp e he
    simp only [pollBatch] at hp
    by_cases hs : h.state = "PROCESSING"
    · simp [hs] at hp
    · simp only [hs, if_false, if_neg hs, Option.some_inj, Prod.mk.injEq] at hp
      obtain ⟨h1, h2⟩ := hp
      subst h2
      simp at he
  | succ fuel ih =>
    intro r es hp e he
    simp only [pollBatch] at hp
    by_cases hs : h.state = "PROCESSING"
    · simp only [hs, if_true] at hp
      cases hr : refetch i with
      | error err =>
        rw [hr] at hp
        dsimp only at hp
        simp only [Option.some_inj, Prod.mk.injEq] at hp
        obtain ⟨h1, h2⟩ := hp
        subst h2
        simp at he
        rcases he with h1 | h1 <;> simp [h1]
      | ok h' =>
        rw [hr] at hp
        dsimp only at hp
        cases hq : pollBatch refetch h' (i + 1) fuel with
        | none => rw [hq] at hp; simp at hp
        | some pr =>
          obtain ⟨r', es'⟩ := pr
          rw [hq] at hp
          simp at hp
          obtain ⟨h1, h2⟩ := hp
          subst h2
          simp only [List.cons_append, List.nil_append, List.mem_cons] at he
          rcases he with h3 | h3 | h3
          · exact Or.inl h3
          · exact Or.inr ⟨h.name, h3⟩
          · exact ih h' (i + 1) r' es' hq e h3
    · simp only [hs, if_false, if_neg hs, Option.some_inj, Prod.mk.injEq] at hp
      obtain ⟨h1, h2⟩ := hp
      subst h2
      simp at he

theorem startsWithL_append (p q : List Char) : startsWithL p (p ++ q) = true := by
  induction p with
  | nil => rfl
  | cons c cs ih => simp [startsWithL, ih]

theorem string_append_ne (pre suf other : String)
    (h : startsWithL pre.data other.data = false) :
    pre ++ suf ≠ other := by
  intro heq
  have hd : pre.data ++ suf.data = other.data := by
    have h2 := congrArg String.data heq
    rwa [String.data_append] at h2
  rw [← hd, startsWithL_append] at h
  simp at h

theorem submitInner_eq (env : SubmitEnv) (fuel : Nat) (t : List Effect)
    (h : submitInner env fuel = some (t, none)) :
    ∃ h0 hT es, env.sdkUpload = Except.ok h0 ∧
      pollBatch env.refetch h0 0 fuel = some (Except.ok hT, es) ∧
      t = [Effect.print "📤 Uploading JSONL via Python SDK...",
           Effect.netUploadFile "batch_requests.jsonl" none] ++ es ++
          [Effect.print ("✅ Batch Input File Ready: " ++ hT.uri),
           Effect.print "🚀 Creating Batch Job...",
           Effect.runProc (batchCmd (env.apiKey.getD "") (jsonDumpSource hT.uri)),
           Effect.print ("Response: " ++ env.finalRes.stdout)] ++
          (if hasSubstring env.finalRes.stdout.data "error".data then
            [Effect.print "❌ Batch Creation Failed."]
          else [Effect.print "✅ Batch Job Created! Check response for ID."]) := by
  simp only [submitInner] at h
  cases henv : env.sdkUpload with
  | error e => rw [henv] at h; simp at h
  | ok h0 =>
    rw [henv] at h
    dsimp only at h
    cases hq : pollBatch env.refetch h0 0 fuel with
    | none => rw [hq] at h; simp at h
    | some pr =>
      obtain ⟨r, es⟩ := pr
      rw [hq] at h
      cases r with
      | error e => simp at h
      | ok hT =>
        dsimp only at h
        simp only [Option.some_inj, Prod.mk.injEq] at h
        refine ⟨h0, hT, es, rfl, hq, ?_⟩
        rw [← h.1]

/-!  ## Claim theorems -/

/-- C1, counterexample: the claim says the manifest contains exactly one
record per document whose upload returned a URI.  With one discovered
document whose upload returns the empty string — a returned URI value,
but Python-falsy — the `if not file_uri: continue` test skips the
document, so the count of records (0) differs from the count of
documents whose upload returned a URI value (1). -/
theorem c1_counterexample :
    ¬ ((create_batch_request (fun _ => some "") ["pdfs/a.pdf"]).1.length =
       (["pdfs/a.pdf"].filter
         (fun p => ((fun (_ : String) => (some "" : Option String)) p).isSome)).length) := by
  decide

/-- C1 (amended): the manifest record list equals, in order, one record
per document whose upload returned a Python-truthy (non-empty) URI, in
discovery order; documents whose upload failed, or returned an empty
URI, contribute no record and no placeholder. -/
theorem c1_manifest_success_records (uploadFn : String → Option String)
    (files : List String) :
    (create_batch_request uploadFn files).1 =
      (files.filter (fun p => !pyFalsy (uploadFn p))).map
        (fun p => mkRequest p ((uploadFn p).getD "")) :=
  create_batch_request_fst uploadFn files

/-- C2: classification is a pure function of the filename: when the
upper-cased basename contains "MEMO" or "MG" the built record carries
the memo schema and the memo prompt; otherwise it carries the
question-paper schema and the question-paper prompt. -/
theorem c2_classification (path uri : String) :
    ((hasSubstring (upperChars (basename path)) "MEMO".data ||
      hasSubstring (upperChars (basename path)) "MG".data) = true →
      (mkRequest path uri).request.generation_config.response_schema = memo_schema ∧
      (mkRequest path uri).request.contents =
        [⟨"user", [Part.text memoPrompt, Part.fileData "application/pdf" uri]⟩]) ∧
    ((hasSubstring (upperChars (basename path)) "MEMO".data ||
      hasSubstring (upperChars (basename path)) "MG".data) = false →
      (mkRequest path uri).request.generation_config.response_schema = qp_schema ∧
      (mkRequest path uri).request.contents =
        [⟨"user", [Part.text qpPrompt, Part.fileData "application/pdf" uri]⟩]) := by
  constructor
  · intro h
    have hm : is_memo (basename path) = true := h
    simp [mkRequest, hm]
  · intro h
    have hm : is_memo (basename path) = false := h
    simp [mkRequest, hm]

/-- C2, witness: a concrete memo filename. -/
theorem c2_witness :
    (mkRequest "pdfs/Bio_P1_MEMO.pdf" "uri0").request.generation_config.response_schema =
      memo_schema ∧
    (mkRequest "pdfs/Bio_P1_MEMO.pdf" "uri0").request.contents =
      [⟨"user", [Part.text memoPrompt, Part.fileData "application/pdf" "uri0"]⟩] :=
  (c2_classification "pdfs/Bio_P1_MEMO.pdf" "uri0").1 (by decide)

/-- C3: whenever the credential is present, `submit_batch_curl` runs the
upload-session curl, the `res.headers` attribute lookup on the
`CompletedProcess` result fails (it has no such attribute), control
reaches the outer exception handler (the error print appears), and the
trace contains no SDK upload, no polling sleep or re-fetch, and no
subprocess call other than the upload-session curl — in particular no
batch-job-creation call. -/
theorem c3_headers_aborts_submission (env : SubmitEnv) (fuel : Nat)
    (h : pyFalsy env.apiKey = false) :
    ∃ t, submit_batch_curl env fuel = some t ∧
      CompletedProcess.getAttr env.curlStart "headers" = none ∧
      Effect.print ("❌ Error: " ++ headersAttrErrMsg) ∈ t ∧
      (∀ p m, Effect.netUploadFile p m ∉ t) ∧
      (∀ n, Effect.sleep n ∉ t) ∧
      (∀ nm, Effect.netGetFile nm ∉ t) ∧
      (∀ args, Effect.runProc args ∈ t →
        args = uploadCmd (env.apiKey.getD "") env.jsonlSize) := by
  refine ⟨[Effect.print "📤 Uploading batch_requests.jsonl to Gemini File API...",
           Effect.runProc (uploadCmd (env.apiKey.getD "") env.jsonlSize),
           Effect.print ("❌ Error: " ++ headersAttrErrMsg)],
          ?_, rfl, ?_, ?_, ?_, ?_, ?_⟩
  · unfold submit_batch_curl
    rw [h]
    rfl
  · simp
  · intro p m
    simp
  · intro n
    simp
  · intro nm
    simp
  · intro args hmem
    simp at hmem
    exact hmem

/-- C3, witness: a concrete environment with the credential present. -/
theorem c3_witness :
    pyFalsy envC3.apiKey = false ∧
    ∃ t, submit_batch_curl envC3 0 = some t ∧
      Effect.print ("❌ Error: " ++ headersAttrErrMsg) ∈ t := by
  refine ⟨by decide, ?_⟩
  obtain ⟨t, h1, _, h3, _⟩ := c3_headers_aborts_submission envC3 0 (by decide)
  exact ⟨t, h1, h3⟩

/-- C4, counterexample: with the credential absent, the Batch Submitter
process completes with exit status 0, not a nonzero status as the claim
requires (`submit_batch_curl` merely prints and returns, and `__main__`
then falls off the end of the script). -/
theorem c4_counterexample :
    submit_main envNoKey 0 = some ([Effect.print "❌ API Key missing"], 0) := rfl

/-- C4 (amended): with the credential absent neither entry point makes
any network call; the Manifest Builder terminates with exit status 1,
but the Batch Submitter returns normally and its process exits with
status 0. -/
theorem c4_no_network_when_credential_absent (files : List String)
    (uploadFn : String → Option String) (env : SubmitEnv) (fuel : Nat)
    (h : env.apiKey = none) :
    (prepare_main none files uploadFn).2 = 1 ∧
    (∀ e ∈ (prepare_main none files uploadFn).1, isNetworkEffect e = false) ∧
    submit_main env fuel = some ([Effect.print "❌ API Key missing"], 0) ∧
    (∀ t n, submit_main env fuel = some (t, n) →
      ∀ e ∈ t, isNetworkEffect e = false) := by
  have hs : submit_main env fuel = some ([Effect.print "❌ API Key missing"], 0) := by
    simp [submit_main, submit_batch_curl, h, pyFalsy]
  refine ⟨rfl, ?_, hs, ?_⟩
  · intro e he
    simp [prepare_main, pyFalsy] at he
    rw [he]
    rfl
  · intro t n ht
    rw [hs] at ht
    simp at ht
    intro e he
    rw [← ht.1] at he
    simp at he
    rw [he]
    rfl

/-- C4, witness: concrete runs of both entry points without a
credential. -/
theorem c4_witness :
    (prepare_main none [] (fun _ => none)).2 = 1 ∧
    submit_main envNoKey 0 = some ([Effect.print "❌ API Key missing"], 0) := by
  obtain ⟨h1, _, h3, _⟩ :=
    c4_no_network_when_credential_absent [] (fun _ => none) envNoKey 0 rfl
  exact ⟨h1, h3⟩

/-- C5, counterexample: in a concrete run of the Submitter's manifest
upload whose handle is observed PROCESSING once and then FAILED, the
poll sleeps 1 time-unit (never 2, contradicting "same fixed interval of
2"), and despite the non-Active terminal state the run does not return a
failure: it proceeds to the batch-job-creation call. -/
theorem c5_counterexample :
    submitInner envC5 2 = some (c5Trace, none) ∧
    envC5.refetch 0 = Except.ok ⟨"files/m", "uri-m", "FAILED"⟩ ∧
    Effect.sleep 1 ∈ c5Trace ∧
    Effect.sleep 2 ∉ c5Trace ∧
    Effect.runProc (batchCmd "K" (jsonDumpSource "uri-m")) ∈ c5Trace := by
  refine ⟨rfl, rfl, ?_, ?_, ?_⟩ <;> simp [c5Trace]

/-- C5 (amended): the Batch Submitter's manifest upload polls at a fixed
interval of 1 time-unit while the state is Processing — not 2 — and
performs no Active check: whenever the poll terminates without a
transport exception, the run proceeds to the batch-job-creation call
regardless of the terminal state. -/
theorem c5_manifest_upload_poll (env : SubmitEnv) (fuel : Nat)
    (t : List Effect) (h : submitInner env fuel = some (t, none)) :
    (∀ n, Effect.sleep n ∈ t → n = 1) ∧
    ∃ hT : FileHandle,
      Effect.runProc (batchCmd (env.apiKey.getD "") (jsonDumpSource hT.uri)) ∈ t := by
  obtain ⟨h0, hT, es, hu, hq, htr⟩ := submitInner_eq env fuel t h
  subst htr
  constructor
  · intro n hn
    by_cases hc : hasSubstring env.finalRes.stdout.data "error".data
    · simp [hc] at hn
      rcases pollBatch_shape env.refetch h0 0 fuel _ es hq _ hn with h1 | ⟨nm, h1⟩ <;>
        simp at h1
      exact h1
    · simp [hc] at hn
      rcases pollBatch_shape env.refetch h0 0 fuel _ es hq _ hn with h1 | ⟨nm, h1⟩ <;>
        simp at h1
      exact h1
  · exact ⟨hT, by simp⟩

/-- C5, witness: applying the amended statement to the concrete FAILED
run. -/
theorem c5_witness :
    (∀ n, Effect.sleep n ∈ c5Trace → n = 1) ∧
    ∃ hT : FileHandle,
      Effect.runProc (batchCmd (envC5.apiKey.getD "") (jsonDumpSource hT.uri)) ∈ c5Trace :=
  c5_manifest_upload_poll envC5 2 c5Trace rfl

/-- C6: whenever the Submitter's inner segment runs to completion
without a transport exception, the single subprocess call it makes is
the batch-job-creation curl whose payload is built from the URI of the
manifest's own uploaded (and polled) handle — not from any individual
document's URI, which does not even flow into this script. -/
theorem c6_payload_references_manifest (env : SubmitEnv) (fuel : Nat)
    (t : List Effect) (h : submitInner env fuel = some (t, none)) :
    ∃ h0 hT es, env.sdkUpload = Except.ok h0 ∧
      pollBatch env.refetch h0 0 fuel = some (Except.ok hT, es) ∧
      Effect.runProc (batchCmd (env.apiKey.getD "") (jsonDumpSource hT.uri)) ∈ t ∧
      (∀ args, Effect.runProc args ∈ t →
        args = batchCmd (env.apiKey.getD "") (jsonDumpSource hT.uri)) := by
  obtain ⟨h0, hT, es, hu, hq, htr⟩ := submitInner_eq env fuel t h
  subst htr
  refine ⟨h0, hT, es, hu, hq, by simp, ?_⟩
  intro args ha
  by_cases hc : hasSubstring env.finalRes.stdout.data "error".data
  · simp [hc] at ha
    rcases ha with ha | ha
    · rcases pollBatch_shape env.refetch h0 0 fuel _ es hq _ ha with h1 | ⟨nm, h1⟩ <;>
        simp at h1
    · exact ha
  · simp [hc] at ha
    rcases ha with ha | ha
    · rcases pollBatch_shape env.refetch h0 0 fuel _ es hq _ ha with h1 | ⟨nm, h1⟩ <;>
        simp at h1
    · exact ha

/-- C6, witness: a concrete run with an immediately ACTIVE manifest
handle. -/
theorem c6_witness :
    ∃ h0 hT es, envC6.sdkUpload = Except.ok h0 ∧
      pollBatch envC6.refetch h0 0 0 = some (Except.ok hT, es) ∧
      Effect.runProc (batchCmd (envC6.apiKey.getD "") (jsonDumpSource hT.uri)) ∈ c6Trace ∧
      (∀ args, Effect.runProc args ∈ c6Trace →
        args = batchCmd (envC6.apiKey.getD "") (jsonDumpSource hT.uri)) :=
  c6_payload_references_manifest envC6 0 c6Trace rfl

/-- C7: when the inner segment completes without a transport exception,
the failure notice is printed exactly when the raw response body of the
job-creation curl contains the substring "error", and the success notice
is printed exactly when it does not (in particular an empty body is
reported as success); no structural validation of the response takes
place. -/
theorem c7_error_substring_verdict (env : SubmitEnv) (fuel : Nat)
    (t : List Effect) (h : submitInner env fuel = some (t, none)) :
    (Effect.print "❌ Batch Creation Failed." ∈ t ↔
      hasSubstring env.finalRes.stdout.data "error".data = true) ∧
    (Effect.print "✅ Batch Job Created! Check response for ID." ∈ t ↔
      hasSubstring env.finalRes.stdout.data "error".data = false) := by
  obtain ⟨h0, hT, es, hu, hq, htr⟩ := submitInner_eq env fuel t h
  subst htr
  have hEs : ∀ s, Effect.print s ∉ es := by
    intro s hmem
    rcases pollBatch_shape env.refetch h0 0 fuel _ es hq _ hmem with h1 | ⟨nm, h1⟩ <;>
      simp at h1
  have hA : ("✅ Batch Input File Ready: " ++ hT.uri) ≠ "❌ Batch Creation Failed." :=
    string_append_ne _ _ _ (by decide)
  have hB : ("✅ Batch Input File Ready: " ++ hT.uri) ≠
      "✅ Batch Job Created! Check response for ID." :=
    string_append_ne _ _ _ (by decide)
  have hC : ("Response: " ++ env.finalRes.stdout) ≠ "❌ Batch Creation Failed." :=
    string_append_ne _ _ _ (by decide)
  have hD : ("Response: " ++ env.finalRes.stdout) ≠
      "✅ Batch Job Created! Check response for ID." :=
    string_append_ne _ _ _ (by decide)
  cases hc : hasSubstring env.finalRes.stdout.data "error".data with
  | true =>
    constructor
    · simp [hc]
    · have hne := hEs "✅ Batch Job Created! Check response for ID."
      simp [hc, hB, hD, hne]
      exact ⟨hB.symm, hD.symm⟩
  | false =>
    constructor
    · have hne := hEs "❌ Batch Creation Failed."
      simp [hc, hA, hC, hne]
      exact ⟨hA.symm, hC.symm⟩
    · simp [hc]

/-- C7, witness: a concrete run with an empty response body is reported
as success, not failure. -/
theorem c7_witness :
    Effect.print "✅ Batch Job Created! Check response for ID." ∈ c7Trace ∧
    Effect.print "❌ Batch Creation Failed." ∉ c7Trace := by
  have hthm := c7_error_substring_verdict envC7 0 c7Trace rfl
  refine ⟨hthm.2.mpr (by decide), fun hmem => ?_⟩
  exact absurd (hthm.1.mp hmem) (by decide)

/-- C8: `upload_file` polls at a fixed interval of 2 time-units while
the handle is PROCESSING, returns the handle's URI when the terminal
state is ACTIVE, and returns `none` (Python `None`, a failure value —
never an exception, as its return type shows) both when the terminal
state is not ACTIVE and when a transport call raises. -/
theorem c8_upload_file_contract (env : UploadEnv) (fuel : Nat)
    (r : Option String) (t : List Effect)
    (h : upload_file env fuel = some (r, t)) :
    (∀ n, Effect.sleep n ∈ t → n = 2) ∧
    (∀ e, env.initial = Except.error e → r = none) ∧
    (∀ h0 e es, env.initial = Except.ok h0 →
      pollUpload env.refetch h0 0 fuel = some (Except.error e, es) → r = none) ∧
    (∀ h0 hT es, env.initial = Except.ok h0 →
      pollUpload env.refetch h0 0 fuel = some (Except.ok hT, es) →
      (hT.state = "ACTIVE" → r = some hT.uri) ∧
      (hT.state ≠ "ACTIVE" → r = none)) := by
  simp only [upload_file] at h
  cases hi : env.initial with
  | error e =>
    rw [hi] at h
    dsimp only at h
    simp only [Option.some_inj, Prod.mk.injEq] at h
    obtain ⟨h1, h2⟩ := h
    subst h1
    subst h2
    refine ⟨?_, fun _ _ => rfl, ?_, ?_⟩
    · intro n hn
      simp at hn
    · intro h0 e' es hctr
      simp at hctr
    · intro h0 hT es hctr
      simp at hctr
  | ok h0 =>
    rw [hi] at h
    dsimp only at h
    cases hq : pollUpload env.refetch h0 0 fuel with
    | none => rw [hq] at h; simp at h
    | some pr =>
      obtain ⟨rr, es⟩ := pr
      rw [hq] at h
      cases rr with
      | error e =>
        dsimp only at h
        simp only [Option.some_inj, Prod.mk.injEq] at h
        obtain ⟨h1, h2⟩ := h
        subst h1
        subst h2
        refine ⟨?_, ?_, fun _ _ _ _ _ => rfl, ?_⟩
        · intro n hn
          simp at hn
          rcases pollUpload_shape env.refetch h0 0 fuel _ es hq _ hn with
            h3 | h3 | ⟨nm, h3⟩ <;> simp at h3
          exact h3
        · intro e' he
          simp at he
        · intro h0' hT es' hi' hq'
          simp at hi'
          subst hi'
          rw [hq] at hq'
          simp at hq'
      | ok hT =>
        dsimp only at h
        by_cases hs : hT.state = "ACTIVE"
        · have hs' : (hT.state != "ACTIVE") = false := by simp [hs]
          rw [hs'] at h
          simp only [Bool.false_eq_true, if_false, Option.some_inj, Prod.mk.injEq] at h
          obtain ⟨h1, h2⟩ := h
          subst h1
          subst h2
          refine ⟨?_, ?_, ?_, ?_⟩
          · intro n hn
            simp at hn
            rcases pollUpload_shape env.refetch h0 0 fuel _ es hq _ hn with
              h3 | h3 | ⟨nm, h3⟩ <;> simp at h3
            exact h3
          · intro e' he
            simp at he
          · intro h0' e' es' hi' hq'
            simp at hi'
            subst hi'
            rw [hq] at hq'
            simp at hq'
          · intro h0' hT' es' hi' hq'
            simp at hi'
            subst hi'
            rw [hq] at hq'
            simp at hq'
            obtain ⟨hTT, _⟩ := hq'
            subst hTT
            exact ⟨fun _ => rfl, fun hne => absurd hs hne⟩
        · have hs' : (hT.state != "ACTIVE") = true := by simp [hs]
          rw [hs'] at h
          simp only [if_true, Option.some_inj, Prod.mk.injEq] at h
          obtain ⟨h1, h2⟩ := h
          subst h1
          subst h2
          refine ⟨?_, ?_, ?_, ?_⟩
          · intro n hn
            simp at hn
            rcases pollUpload_shape env.refetch h0 0 fuel _ es hq _ hn with
              h3 | h3 | ⟨nm, h3⟩ <;> simp at h3
            exact h3
          · intro e' he
            simp at he
          · intro h0' e' es' hi' hq'
            rfl
          · intro h0' hT' es' hi' hq'
            simp at hi'
            subst hi'
            rw [hq] at hq'
            simp at hq'
            obtain ⟨hTT, _⟩ := hq'
            subst hTT
            exact ⟨fun ha => absurd ha hs, fun _ => rfl⟩

/-- C8, witness: a concrete upload whose handle is immediately ACTIVE
returns the URI, with no polling sleep other than 2 in its trace. -/
theorem c8_witness :
    ∃ t, upload_file envC8 0 = some (some "u", t) ∧
      ∀ n, Effect.sleep n ∈ t → n = 2 := by
  refine ⟨c8Trace, rfl, ?_⟩
  exact (c8_upload_file_contract envC8 0 (some "u") c8Trace rfl).1

/-- C9: every manifest record's custom_id equals the basename of its
source document's path with no transformation, and when the input paths
are what the glob produces (distinct paths of the form `pdfs/<name>` with
no further slash), the custom_id values of one manifest are pairwise
distinct. -/
theorem c9_custom_id_basename_unique (uploadFn : String → Option String)
    (files : List String) (hn : files.Nodup)
    (hshape : ∀ p ∈ files, ∃ nm, p = "pdfs/" ++ nm ∧ '/' ∉ nm.data) :
    (∀ r ∈ (create_batch_request uploadFn files).1,
      ∃ p ∈ files, r.custom_id = basename p) ∧
    ((create_batch_request uploadFn files).1.map
      (fun r => r.custom_id)).Nodup := by
  rw [create_batch_request_fst]
  constructor
  · intro r hr
    simp only [List.mem_map] at hr
    obtain ⟨p, hp, hr⟩ := hr
    refine ⟨p, List.mem_of_mem_filter hp, ?_⟩
    rw [← hr]
    rfl
  · rw [List.map_map]
    have hcomp : ((fun r : BatchRequest => r.custom_id) ∘
        (fun p => mkRequest p ((uploadFn p).getD ""))) = fun p => basename p := rfl
    rw [hcomp]
    apply List.Nodup.map_on
    · intro x hx y hy hxy
      obtain ⟨nx, hpx, hnx⟩ := hshape x (List.mem_of_mem_filter hx)
      obtain ⟨ny, hpy, hny⟩ := hshape y (List.mem_of_mem_filter hy)
      rw [hpx, hpy] at hxy ⊢
      rw [basename_pdfs nx hnx, basename_pdfs ny hny] at hxy
      rw [hxy]
    · exact hn.filter _

/-- C9, witness: two concrete discovered paths. -/
theorem c9_witness :
    (∀ r ∈ (create_batch_request (fun _ => some "u")
        ["pdfs/a.pdf", "pdfs/b.pdf"]).1,
      ∃ p ∈ ["pdfs/a.pdf", "pdfs/b.pdf"], r.custom_id = basename p) ∧
    ((create_batch_request (fun _ => some "u")
        ["pdfs/a.pdf", "pdfs/b.pdf"]).1.map (fun r => r.custom_id)).Nodup := by
  apply c9_custom_id_basename_unique
  · decide
  · intro p hp
    simp at hp
    rcases hp with hp | hp <;> subst hp
    · exact ⟨"a.pdf", rfl, by decide⟩
    · exact ⟨"b.pdf", rfl, by decide⟩

/-- C10: with zero discovered documents and the credential present, the
Manifest Builder prints a count of 0, writes an empty manifest file
(empty contents, zero lines), reports 0 entries, and exits with status
0. -/
theorem c10_empty_discovery (apiKey : Option String)
    (uploadFn : String → Option String) (h : pyFalsy apiKey = false) :
    prepare_main apiKey [] uploadFn =
      ([Effect.print "📂 Found 0 PDFs.",
        Effect.writeFile "batch_requests.jsonl" "",
        Effect.print "\n✅ generated batch_requests.jsonl with 0 entries.",
        Effect.print runNextMsg], 0) := by
  unfold prepare_main
  rw [h]
  simp [create_batch_request, create_batch_request_aux, manifestText, String.join]
  exact ⟨rfl, rfl⟩

/-- C10, witness: a concrete credential. -/
theorem c10_witness :
    prepare_main (some "k") [] (fun _ => none) =
      ([Effect.print "📂 Found 0 PDFs.",
        Effect.writeFile "batch_requests.jsonl" "",
        Effect.print "\n✅ generated batch_requests.jsonl with 0 entries.",
        Effect.print runNextMsg], 0) :=
  c10_empty_discovery (some "k") (fun _ => none) (by decide)

end PdfBatch
